import Mathlib

/-!
Verification of the user-controller session lifecycle
(`src/controllers/user.controller.js`): registration, login, logout and
refresh-token rotation, modelled as pure state-passing functions over an
explicit credential store, with the JavaScript-level behaviour of the
source (optional chaining, strict equality, object destructuring,
truthiness) embedded explicitly where the controller relies on it.
-/

deriving instance DecidableEq for Except

namespace OVP

/-! ## JavaScript value fragments used by the controller expressions -/

/-- The JS values that can arise in the controller's validation expression:
`undefined`, a function value (an uninvoked method), or a string. -/
inductive JsVal where
  | undef
  | fn
  | str (s : String)
deriving DecidableEq, Repr

/-- Model of `field?.trim` for a string-valued field: optional chaining reads the
`trim` method of the string without invoking it (the source omits `()`),
so the result is a function value. -/
def trimProp (_field : String) : JsVal := JsVal.fn

/-- JS strict equality `v === ""`: true only when `v` is the string `""`;
a function value or `undefined` is never strictly equal to a string. -/
def strictEqEmptyStr : JsVal → Bool
  | JsVal.str s => s = ""
  | _ => false

/-- Model of `s.toLowerCase()`: character-wise lowering of the string. -/
def jsToLower (s : String) : String := ⟨s.data.map Char.toLower⟩

/-! ## Tokens (JSON Web Tokens)

Modelled from the spec: the Token Issuer methods
(`user.generateAccessToken` / `user.generateRefreshToken`, defined in
`src/models/user.model.js`, which is not part of this fragment) mint a
signed claim of the user's identity using the per-token-type secret.
The `iat` field models the JWT issued-at claim: the store's token clock
strictly advances at every mint, so successive tokens are distinct
("each refresh strictly advances the token generation"). -/

structure SignedToken where
  secret : String
  payloadId : Nat
  iat : Nat
deriving DecidableEq, Repr

/-- A token value in transit: either a well-formed signed token or an
arbitrary raw string (garbage that fails verification). -/
inductive TokenVal where
  | signed (t : SignedToken)
  | raw (s : String)
deriving DecidableEq, Repr

instance : Inhabited TokenVal := ⟨TokenVal.raw ""⟩

/-- Modelled from the spec: `jwt.sign` over a payload carrying the user id,
with the given secret and issue counter. -/
def jwtSign (payloadId : Nat) (secret : String) (iat : Nat) : TokenVal :=
  TokenVal.signed ⟨secret, payloadId, iat⟩

/-- Model of `jwt.verify(token, secret)`: yields the embedded `_id` claim iff the
token was signed with the same secret; otherwise throws (the error message
is returned on the left). -/
def jwtVerify (tok : TokenVal) (secret : String) : Except String Nat :=
  match tok with
  | TokenVal.signed t =>
      if t.secret = secret then Except.ok t.payloadId
      else Except.error "invalid signature"
  | TokenVal.raw _ => Except.error "jwt malformed"

/-- A serialized form of a token, used when a user document is serialized. -/
def tokenRepr : TokenVal → String
  | TokenVal.signed t => t.secret ++ "." ++ toString t.payloadId ++ "." ++ toString t.iat
  | TokenVal.raw s => s

/-! ## The user record and the credential store -/

/-- Modelled from the spec: the password hashing hook of the user schema
(`user.model.js`, not part of this fragment) stores an opaque hash of the
plaintext password at creation. -/
def hashPassword (pw : String) : String := "bcrypt$" ++ pw

/-- A stored user document. `refreshToken` is `none` when the field is
absent/undefined on the document. -/
structure UserRec where
  id : Nat
  username : String
  email : String
  fullName : String
  avatar : String
  coverImage : String
  password : String
  refreshToken : Option TokenVal
deriving DecidableEq, Repr

/-- Modelled from the spec: `user.isPasswordCorrect(password)` compares the
candidate password against the stored hash. -/
def isPasswordCorrect (u : UserRec) (pw : String) : Bool :=
  u.password = hashPassword pw

/-- Serialization of a user document to its field/value list, as the
document would appear in a response body; an absent (`undefined`)
`refreshToken` field is omitted, as in JSON serialization. -/
def serializeUser (u : UserRec) : List (String × String) :=
  [("_id", toString u.id), ("username", u.username), ("email", u.email),
   ("fullName", u.fullName), ("avatar", u.avatar), ("coverImage", u.coverImage),
   ("password", u.password)] ++
  (match u.refreshToken with
   | none => []
   | some t => [("refreshToken", tokenRepr t)])

/-- Model of `.select("-password -refreshToken")`: projection of a user document
with the two excluded paths removed. -/
def selectSanitized (u : UserRec) : List (String × String) :=
  (serializeUser u).filter (fun kv => !(kv.1 = "password" || kv.1 = "refreshToken"))

/-- The credential store: the user collection plus the id and token-clock
counters (the latter models the issuer's issued-at clock). -/
structure DB where
  users : List UserRec
  nextId : Nat
  tokenClock : Nat
deriving DecidableEq, Repr

/-- Model of `User.findById(id)`. -/
def findById (users : List UserRec) (id : Nat) : Option UserRec :=
  users.find? (fun u => u.id = id)

/-- Saving a modified user document back into the collection. -/
def updateUser (users : List UserRec) (id : Nat) (f : UserRec → UserRec) : List UserRec :=
  users.map (fun u => if u.id = id then f u else u)

/-- Model of `User.findOne({$or: [{username}, {email}]})`: first user whose username
matches the supplied username or whose email matches the supplied email. -/
def findOneByUsernameOrEmail (users : List UserRec) (username email : Option String) :
    Option UserRec :=
  users.find? (fun u => username = some u.username || email = some u.email)

/-! ## Environment: process configuration and external-collaborator outcomes -/

/-- Process configuration and the outcomes of the external collaborators
whose failure modes the controller itself branches on:
`saveOk` is whether `user.save` inside the token generator succeeds (its
`try`/`catch` guards this); `refetchFinds` is whether the post-creation
`findById` in registration returns the just-created document (the
controller's `if (!createdUser)` guards this); `upload` is
`uploadOnCloudinary`, which returns the uploaded URL or nothing. -/
structure Env where
  accessSecret : String
  refreshSecret : String
  saveOk : Bool
  refetchFinds : Bool
  upload : Option String → Option String

/-! ## Errors and the token generator -/

/-- Model of `ApiError(statusCode, message)`. -/
structure ApiError where
  statusCode : Nat
  message : String
deriving DecidableEq, Repr

/-- A failure escaping a handler: a thrown `ApiError`, or a raw JavaScript
error (e.g. a `TypeError`) that was never converted to an `ApiError`. -/
inductive Failure where
  | api (e : ApiError)
  | jsError (msg : String)
deriving DecidableEq, Repr

/-- The object `{accessToken, refreshToken}` returned by the generator. -/
structure TokenPair where
  accessToken : TokenVal
  refreshToken : TokenVal
deriving DecidableEq, Repr

/-- The property map of the generator's result object `{accessToken, refreshToken}`. -/
def tokenPairProps (p : TokenPair) : List (String × TokenVal) :=
  [("accessToken", p.accessToken), ("refreshToken", p.refreshToken)]

/-- JS property lookup on an object: reading an absent property yields
`undefined` (`none`). -/
def getProp (props : List (String × TokenVal)) (k : String) : Option TokenVal :=
  (props.find? (fun kv => kv.1 = k)).map (fun kv => kv.2)

/-- Model of `user.refreshToken = refreshToken` before `user.save()`. -/
def setRefreshTok (t : TokenVal) (u : UserRec) : UserRec :=
  { u with refreshToken := some t }

/-- Model of `generateAccessAndRefreshToken(userId)`: finds the user, mints both
tokens, persists the refresh token on the document and returns the pair;
any failure inside (user not found — so that calling the token methods
throws — or the save failing) is caught and rethrown as a 500. -/
def generateAccessAndRefreshToken (env : Env) (db : DB) (userId : Nat) :
    DB × Except ApiError TokenPair :=
  match findById db.users userId with
  | none =>
      (db, Except.error ⟨500, "Something went wrong while generating refresh and access token"⟩)
  | some user =>
      if env.saveOk then
        ({ db with
            users := updateUser db.users user.id
              (setRefreshTok (jwtSign user.id env.refreshSecret (db.tokenClock + 1))),
            tokenClock := db.tokenClock + 2 },
         Except.ok ⟨jwtSign user.id env.accessSecret db.tokenClock,
                    jwtSign user.id env.refreshSecret (db.tokenClock + 1)⟩)
      else
        (db, Except.error ⟨500, "Something went wrong while generating refresh and access token"⟩)

/-! ## Register -/

/-- One multer file entry, carrying its local path. -/
structure FilePart where
  path : String
deriving DecidableEq, Repr

/-- Model of `req.files`: the per-field arrays of uploaded files; a field is `none`
when no file was sent for it. -/
structure Files where
  avatar : Option (List FilePart)
  coverImage : Option (List FilePart)
deriving DecidableEq, Repr

/-- Model of `req.body` for registration (all four fields strings) plus `req.files`
(`none` when the whole files object is absent). -/
structure RegisterInput where
  fullName : String
  email : String
  password : String
  username : String
  files : Option Files
deriving Repr

/-- Model of `req.files?.avatar[0]?.path`: the optional chain guards only `files`;
when `files` is present but `avatar` is absent, `avatar[0]` is an index
read on `undefined` and throws a TypeError (contrast the fully guarded
cover-image chain on the next source line). -/
def avatarLocalPath : Option Files → Except String (Option String)
  | none => Except.ok none
  | some f =>
      match f.avatar with
      | none => Except.error "Cannot read properties of undefined (reading 0)"
      | some [] => Except.ok none
      | some (p :: _) => Except.ok (some p.path)

/-- Model of `req.files?.coverImage?.[0]?.path`: fully guarded optional chain. -/
def coverImageLocalPath (files : Option Files) : Option String :=
  files.bind (fun f =>
    f.coverImage.bind (fun arr =>
      match arr with
      | [] => none
      | p :: _ => some p.path))

/-- A registration response: HTTP status, envelope statusCode, the
serialized created user, and the envelope message. -/
structure RegisterRes where
  httpStatus : Nat
  bodyStatusCode : Nat
  bodyData : List (String × String)
  message : String
deriving DecidableEq, Repr

instance : Inhabited RegisterRes := ⟨⟨0, 0, [], ""⟩⟩

/-- Model of `registerUser`: validation (the source tests `field?.trim === ""`,
comparing the uninvoked trim method against the empty string), existence
check, avatar extraction and upload, creation (password hashed and
username lower-cased by the schema hooks), sanitized re-fetch, 201
response wrapping an `ApiResponse(200, ...)`. -/
def registerUser (env : Env) (db : DB) (input : RegisterInput) :
    DB × Except Failure RegisterRes :=
  if [input.fullName, input.email, input.password, input.username].any
      (fun f => strictEqEmptyStr (trimProp f)) then
    (db, Except.error (Failure.api ⟨400, "All fields are required"⟩))
  else
    match findOneByUsernameOrEmail db.users (some input.username) (some input.email) with
    | some _ => (db, Except.error (Failure.api ⟨409, "User already exists"⟩))
    | none =>
        match avatarLocalPath input.files with
        | Except.error m => (db, Except.error (Failure.jsError m))
        | Except.ok avatarPath =>
            if avatarPath = none then
              (db, Except.error (Failure.api ⟨400, "Avatar file is required"⟩))
            else
              match env.upload avatarPath with
              | none => (db, Except.error (Failure.api ⟨400, "Avatar file is required"⟩))
              | some avatarUrl =>
                  let newUser : UserRec :=
                    { id := db.nextId,
                      username := jsToLower input.username,
                      email := input.email,
                      fullName := input.fullName,
                      avatar := avatarUrl,
                      coverImage := (env.upload (coverImageLocalPath input.files)).getD "",
                      password := hashPassword input.password,
                      refreshToken := none }
                  let db1 : DB :=
                    { db with users := db.users ++ [newUser], nextId := db.nextId + 1 }
                  match (if env.refetchFinds then
                           (findById db1.users newUser.id).map selectSanitized
                         else none) with
                  | none =>
                      (db1, Except.error
                        (Failure.api ⟨500, "Something went wrong while registering the user"⟩))
                  | some createdUser =>
                      (db1, Except.ok
                        { httpStatus := 201, bodyStatusCode := 200,
                          bodyData := createdUser,
                          message := "🟢User registered Successfully !!" })

/-! ## Login -/

/-- Model of `req.body` for login; username and email may each be absent. -/
structure LoginInput where
  username : Option String
  email : Option String
  password : String
deriving Repr

/-- JS truthiness of an optional string: `undefined` and `""` are falsy. -/
def truthyStr : Option String → Bool
  | none => false
  | some s => s ≠ ""

/-- A login response: status, envelope statusCode, the sanitized user (an
unchecked re-fetch, hence optional), both tokens, and the cookies set in
the order the source sets them. -/
structure LoginRes where
  httpStatus : Nat
  bodyStatusCode : Nat
  user : Option (List (String × String))
  accessToken : TokenVal
  refreshToken : TokenVal
  cookies : List (String × Option TokenVal)
  message : String
deriving DecidableEq, Repr

/-- Model of `loginUser`: requires a truthy username or email, finds the user (404
otherwise), checks the password (404 on mismatch), mints and persists a
token pair, re-fetches the sanitized user, responds 200 with both cookies. -/
def loginUser (env : Env) (db : DB) (input : LoginInput) :
    DB × Except Failure LoginRes :=
  if !(truthyStr input.username || truthyStr input.email) then
    (db, Except.error (Failure.api ⟨400, "username or email is required"⟩))
  else
    match findOneByUsernameOrEmail db.users input.username input.email with
    | none => (db, Except.error (Failure.api ⟨404, "User does not exist"⟩))
    | some user =>
        if !(isPasswordCorrect user input.password) then
          (db, Except.error (Failure.api ⟨404, "Invalid user credentials"⟩))
        else
          match generateAccessAndRefreshToken env db user.id with
          | (db1, Except.error e) => (db1, Except.error (Failure.api e))
          | (db1, Except.ok pair) =>
              (db1, Except.ok
                { httpStatus := 200, bodyStatusCode := 200,
                  user := (findById db1.users user.id).map selectSanitized,
                  accessToken := pair.accessToken,
                  refreshToken := pair.refreshToken,
                  cookies := [("refreshToken", some pair.refreshToken),
                              ("accessToken", some pair.accessToken)],
                  message := "User logged in Successfully!!" })

/-! ## Logout -/

/-- A logout response: status, envelope statusCode, cleared cookies. -/
structure LogoutRes where
  httpStatus : Nat
  bodyStatusCode : Nat
  clearedCookies : List String
  message : String
deriving DecidableEq, Repr

/-- Model of `User.findByIdAndUpdate(id, {$set: {refreshToken: v}}, {new: true})`
as the controller issues it, with `v = undefined` (`none`): Mongoose
strips `undefined` keys out of update operators before executing the
update, so a `$set` to `undefined` leaves the stored document unchanged. -/
def findByIdAndUpdateSetRefreshToken (db : DB) (userId : Nat) (v : Option TokenVal) : DB :=
  match v with
  | none => db
  | some t => { db with users := updateUser db.users userId (setRefreshTok t) }

/-- Model of `logoutUser`: issues the `$set: {refreshToken: undefined}` update and
clears both cookies. -/
def logoutUser (db : DB) (userId : Nat) : DB × LogoutRes :=
  (findByIdAndUpdateSetRefreshToken db userId none,
   { httpStatus := 200, bodyStatusCode := 200,
     clearedCookies := ["accessToken", "refreshToken"],
     message := "User logged out" })

/-! ## Refresh -/

/-- JS truthiness of an optional token value: `undefined` and the empty
string are falsy. -/
def tokenTruthy : Option TokenVal → Bool
  | none => false
  | some (TokenVal.raw s) => s ≠ ""
  | some (TokenVal.signed _) => true

/-- Model of `a || b` over the cookie and body refresh tokens. -/
def jsOrTok (a b : Option TokenVal) : Option TokenVal :=
  if tokenTruthy a then a else b

/-- Model of `m || dflt` over strings: the empty string is falsy. -/
def jsOrStr (m dflt : String) : String :=
  if m = "" then dflt else m

/-- A refresh response. The token fields are optional because the source
builds them by destructuring `{accessToken, newRefreshToken}` out of the
generator's result object, and a missing property reads as `undefined`. -/
structure RefreshRes where
  httpStatus : Nat
  bodyStatusCode : Nat
  accessToken : Option TokenVal
  refreshToken : Option TokenVal
  cookies : List (String × Option TokenVal)
  message : String
deriving DecidableEq, Repr

/-- The `try` block of `refreshAccessToken`: verify the incoming token
against the refresh secret, look up the claimed identity, require exact
equality with the stored refresh token, then mint and persist a new pair.
Every failure is reported by its message only, because the surrounding
`catch` keeps nothing else. The response's token fields come from the JS
destructuring `{accessToken, newRefreshToken}` of the generator's
`{accessToken, refreshToken}` object, via property lookup. -/
def refreshTry (env : Env) (db : DB) (incoming : TokenVal) :
    DB × Except String RefreshRes :=
  match jwtVerify incoming env.refreshSecret with
  | Except.error m => (db, Except.error m)
  | Except.ok decodedId =>
      match findById db.users decodedId with
      | none => (db, Except.error "Invalid RefreshToken")
      | some user =>
          if user.refreshToken ≠ some incoming then
            (db, Except.error "Refresh token is expired or used")
          else
            match generateAccessAndRefreshToken env db user.id with
            | (db1, Except.error e) => (db1, Except.error e.message)
            | (db1, Except.ok pair) =>
                (db1, Except.ok
                  { httpStatus := 200, bodyStatusCode := 200,
                    accessToken := getProp (tokenPairProps pair) "accessToken",
                    refreshToken := getProp (tokenPairProps pair) "newRefreshToken",
                    cookies :=
                      [("accessToken", getProp (tokenPairProps pair) "accessToken"),
                       ("refreshToken", getProp (tokenPairProps pair) "newRefreshToken")],
                    message := "Access token refreshed" })

/-- Model of `refreshAccessToken`: takes the refresh token from the cookie or the
body (`||`), rejects 401 when falsy, runs the `try` block, and converts
any failure thrown inside it into `ApiError(401, error.message || "Invalid
refresh token")`. -/
def refreshAccessToken (env : Env) (db : DB) (cookieToken bodyToken : Option TokenVal) :
    DB × Except Failure RefreshRes :=
  match jsOrTok cookieToken bodyToken with
  | none => (db, Except.error (Failure.api ⟨401, "Unauthorized Request!!"⟩))
  | some incoming =>
      if tokenTruthy (some incoming) then
        match refreshTry env db incoming with
        | (db1, Except.ok r) => (db1, Except.ok r)
        | (db1, Except.error m) =>
            (db1, Except.error (Failure.api ⟨401, jsOrStr m "Invalid refresh token"⟩))
      else
        (db, Except.error (Failure.api ⟨401, "Unauthorized Request!!"⟩))

/-! ## Concrete fixtures used by witnesses and counterexamples -/

/-- A working environment: distinct secrets, save and re-fetch succeed,
uploads succeed. -/
def envT : Env :=
  { accessSecret := "acc", refreshSecret := "ref", saveOk := true, refetchFinds := true,
    upload := fun p => p.map (fun _ => "http://cdn/img.png") }

/-- Environment in which `user.save` inside the token generator fails. -/
def envNoSave : Env := { envT with saveOk := false }

/-- Environment in which the post-creation re-fetch returns nothing. -/
def envNoRefetch : Env := { envT with refetchFinds := false }

/-- A refresh token for user 1, signed with the refresh secret. -/
def tok0 : TokenVal := jwtSign 1 "ref" 0

/-- A stored user whose current refresh token is `tok0`. -/
def user1 : UserRec :=
  { id := 1, username := "alice", email := "alice@x.com", fullName := "Alice",
    avatar := "http://cdn/a.png", coverImage := "", password := hashPassword "pw123",
    refreshToken := some tok0 }

/-- A store holding just `user1`. -/
def db1u : DB := { users := [user1], nextId := 2, tokenClock := 1 }

/-- An empty store. -/
def dbEmpty : DB := { users := [], nextId := 1, tokenClock := 0 }

/-- A fully valid registration request. -/
def regOkInput : RegisterInput :=
  { fullName := "Bob Builder", email := "bob@x.com", password := "pw456", username := "Bob",
    files := some { avatar := some [⟨"/tmp/avatar.png"⟩], coverImage := none } }

/-- The same request with a whitespace-only full name. -/
def regBlankInput : RegisterInput :=
  { regOkInput with fullName := "   " }

/-- The same request with a files object that carries a cover image but no
avatar field. -/
def regNoAvatarInput : RegisterInput :=
  { regOkInput with files := some { avatar := none, coverImage := some [⟨"/tmp/cover.png"⟩] } }

/-- The store and sanitized response produced by the valid registration
`regOkInput` against the empty store. -/
def userBob : UserRec :=
  { id := 1, username := "bob", email := "bob@x.com", fullName := "Bob Builder",
    avatar := "http://cdn/img.png", coverImage := "", password := hashPassword "pw456",
    refreshToken := none }

/-- The response of the valid registration `regOkInput` on the empty store. -/
def regOkRes : RegisterRes :=
  { httpStatus := 201, bodyStatusCode := 200,
    bodyData := [("_id", "1"), ("username", "bob"), ("email", "bob@x.com"),
                 ("fullName", "Bob Builder"), ("avatar", "http://cdn/img.png"),
                 ("coverImage", "")],
    message := "🟢User registered Successfully !!" }

/-! ## Helper lemmas -/

/-- A found record bears the id it was asked for. -/
theorem findById_id {l : List UserRec} {x : Nat} {u : UserRec}
    (h : findById l x = some u) : u.id = x := by
  have := List.find?_some h
  simpa using this

/-- Finding in a collection mapped by an id-preserving function. -/
theorem findById_map (g : UserRec → UserRec) (hg : ∀ v, (g v).id = v.id)
    (l : List UserRec) (x : Nat) :
    findById (l.map g) x = (findById l x).map g := by
  induction l with
  | nil => rfl
  | cons v t ih =>
      simp only [List.map_cons, findById, List.find?] at *
      rw [hg v]
      by_cases h : v.id = x
      · simp [h]
      · simp [h, ih]

/-- Finding after an update that only rewrites the refresh token. -/
theorem findById_updateUser (l : List UserRec) (uid x : Nat) (t : TokenVal) :
    findById (updateUser l uid (setRefreshTok t)) x =
      (findById l x).map (fun v => if v.id = uid then setRefreshTok t v else v) := by
  unfold updateUser
  exact findById_map _ (fun v => by by_cases h : v.id = uid <;> simp [h, setRefreshTok]) l x

/-- The token generator leaves the store unchanged whenever it fails. -/
theorem generate_error_db {env : Env} {db db' : DB} {uid : Nat} {e : ApiError}
    (h : generateAccessAndRefreshToken env db uid = (db', Except.error e)) : db' = db := by
  unfold generateAccessAndRefreshToken at h
  split at h
  · exact (Prod.mk.injEq .. ▸ h).1.symm
  · split at h
    · simp at h
    · exact (Prod.mk.injEq .. ▸ h).1.symm

/-- Every field of a sanitized projection differs from the excluded paths. -/
theorem selectSanitized_clean (u : UserRec) :
    (selectSanitized u).all (fun kv => !(kv.1 = "password" || kv.1 = "refreshToken")) = true := by
  unfold selectSanitized
  exact List.all_eq_true.mpr (fun kv hkv => (List.mem_filter.mp hkv).2)

/-! ## Claims -/

/-- Claim C1 — evidence of the code bug. On a fully valid refresh (the store
holds `user1`, whose current refresh token `tok0` is presented) the
operation succeeds and rotates the persisted token to the freshly minted
value, but the `refreshToken` field of the response body and the
`refreshToken` cookie carry `undefined` (`none`), not the new token: the
source destructures the property `newRefreshToken`, which the generator's
result object `{accessToken, refreshToken}` does not have. -/
theorem c1_refresh_response_lacks_rotated_token :
    refreshAccessToken envT db1u (some tok0) none =
      ({ users := [{ user1 with refreshToken := some (jwtSign 1 "ref" 2) }],
         nextId := 2, tokenClock := 3 },
       Except.ok { httpStatus := 200, bodyStatusCode := 200,
                   accessToken := some (jwtSign 1 "acc" 1),
                   refreshToken := none,
                   cookies := [("accessToken", some (jwtSign 1 "acc" 1)),
                               ("refreshToken", none)],
                   message := "Access token refreshed" }) ∧
    (jwtSign 1 "ref" 2 : TokenVal) ≠ tok0 := by decide

/-- Claim C2 — evidence of the code bug. A registration whose full name is
whitespace-only is not rejected: the validation expression
`field?.trim === ""` compares the uninvoked `trim` method (a function
value) against `""`, which is never true, so the request sails through,
a record is created, and the response is a 201 success. -/
theorem c2_blank_field_not_rejected :
    registerUser envT dbEmpty regBlankInput =
      ({ users := [{ userBob with fullName := "   " }], nextId := 2, tokenClock := 0 },
       Except.ok { regOkRes with
                   bodyData := [("_id", "1"), ("username", "bob"), ("email", "bob@x.com"),
                                ("fullName", "   "), ("avatar", "http://cdn/img.png"),
                                ("coverImage", "")] }) ∧
    (registerUser envT dbEmpty regBlankInput).1.users.length = 1 := by decide

/-- Claim C3 — evidence of the code bug. Logout does not clear the stored
refresh token: Mongoose strips the `undefined` value out of
`$set: { refreshToken: undefined }`, so the update is a no-op, and a
subsequent refresh presenting the token that was valid before the logout
still succeeds with a 200 instead of failing with a 401. -/
theorem c3_refresh_succeeds_after_logout :
    (logoutUser db1u 1).1 = db1u ∧
    findById (logoutUser db1u 1).1.users 1 = some user1 ∧
    (refreshAccessToken envT (logoutUser db1u 1).1 (some tok0) none).2 =
      Except.ok { httpStatus := 200, bodyStatusCode := 200,
                  accessToken := some (jwtSign 1 "acc" 1),
                  refreshToken := none,
                  cookies := [("accessToken", some (jwtSign 1 "acc" 1)),
                              ("refreshToken", none)],
                  message := "Access token refreshed" } := by decide

/-- Claim C8 — evidence of the code bug. When the files object is present
but carries no avatar field (here: only a cover image was uploaded),
`req.files?.avatar[0]?.path` indexes `undefined` and throws a raw
TypeError, which escapes the handler instead of the claimed
`ApiError(400, "Avatar file is required")`; the store is untouched. -/
theorem c8_missing_avatar_field_throws_typeerror :
    registerUser envT dbEmpty regNoAvatarInput =
      (dbEmpty, Except.error (Failure.jsError "Cannot read properties of undefined (reading 0)")) ∧
    Failure.jsError "Cannot read properties of undefined (reading 0)" ≠
      Failure.api ⟨400, "Avatar file is required"⟩ := by decide

/-- With a failing save, the token generator reports the 500 and leaves
the store unchanged, whether or not the user exists. -/
theorem generate_fails_of_no_save {env : Env} (db : DB) (uid : Nat)
    (h : env.saveOk = false) :
    generateAccessAndRefreshToken env db uid =
      (db, Except.error ⟨500, "Something went wrong while generating refresh and access token"⟩) := by
  unfold generateAccessAndRefreshToken
  cases hf : findById db.users uid with
  | none => rfl
  | some user => simp [h]

/-- The refresh try-block leaves the store unchanged whenever it fails. -/
theorem refreshTry_error_db {env : Env} {db db' : DB} {incoming : TokenVal} {m : String}
    (h : refreshTry env db incoming = (db', Except.error m)) : db' = db := by
  unfold refreshTry at h
  split at h
  · exact (congrArg Prod.fst h).symm
  · split at h
    · exact (congrArg Prod.fst h).symm
    · split at h
      · exact (congrArg Prod.fst h).symm
      · split at h
        · next heq => exact (congrArg Prod.fst h).symm.trans (generate_error_db heq)
        · simp at h

/-- Claim C5 — counterexample to the claim as stated. On a refresh whose
token is fully valid but whose accompanying persistence fails, the
generator's 500 is caught by the refresh catch-all and reaches the caller
as a 401 (carrying the internal-error message), not as a 500. -/
theorem c5_cex_refresh_signing_failure_is_401 :
    (refreshAccessToken envNoSave db1u (some tok0) none).2 =
      Except.error (Failure.api
        ⟨401, "Something went wrong while generating refresh and access token"⟩) ∧
    (401 : Nat) ≠ 500 := by decide

/-- Claim C5 — the amended claim. In Login, a signing/persistence failure
inside the token generator reaches the caller as the 500 internal error;
in Refresh, the same failure is caught by the operation's catch-all and
reaches the caller as a 401 carrying the generator's message. -/
theorem c5_amended_minting_failure_propagation :
    (∀ (env : Env) (db : DB) (input : LoginInput) (u : UserRec),
        env.saveOk = false →
        (truthyStr input.username || truthyStr input.email) = true →
        findOneByUsernameOrEmail db.users input.username input.email = some u →
        isPasswordCorrect u input.password = true →
        (loginUser env db input).2 =
          Except.error (Failure.api
            ⟨500, "Something went wrong while generating refresh and access token"⟩)) ∧
    (∀ (env : Env) (db : DB) (uid i : Nat) (u : UserRec),
        env.saveOk = false →
        findById db.users uid = some u →
        u.refreshToken = some (jwtSign uid env.refreshSecret i) →
        (refreshAccessToken env db (some (jwtSign uid env.refreshSecret i)) none).2 =
          Except.error (Failure.api
            ⟨401, "Something went wrong while generating refresh and access token"⟩)) := by
  constructor
  · intro env db input u hsave hor hfind hpw
    simp [loginUser, hor, hfind, hpw, generate_fails_of_no_save db u.id hsave]
  · intro env db uid i u hsave hfind htok
    have hid : u.id = uid := findById_id hfind
    simp [refreshAccessToken, jsOrTok, tokenTruthy, jwtSign, refreshTry, jwtVerify,
          hfind, htok, hid, generate_fails_of_no_save db uid hsave, jsOrStr]

/-- Claim C5 — witness for the amended claim at concrete inputs. -/
theorem c5_amended_witness :
    (loginUser envNoSave db1u { username := some "alice", email := none, password := "pw123" }).2 =
      Except.error (Failure.api
        ⟨500, "Something went wrong while generating refresh and access token"⟩) ∧
    (refreshAccessToken envNoSave db1u (some tok0) none).2 =
      Except.error (Failure.api
        ⟨401, "Something went wrong while generating refresh and access token"⟩) :=
  ⟨c5_amended_minting_failure_propagation.1 envNoSave db1u
      { username := some "alice", email := none, password := "pw123" } user1
      rfl (by decide) (by decide) (by decide),
   c5_amended_minting_failure_propagation.2 envNoSave db1u 1 0 user1
      rfl (by decide) (by decide)⟩

/-- Claim C6 — counterexample to the claim as stated. When the post-creation
re-fetch returns nothing, Register terminates with the 500 internal error
while the created record survives in the store. -/
theorem c6_cex_register_error_leaves_record :
    registerUser envNoRefetch dbEmpty regOkInput =
      ({ users := [userBob], nextId := 2, tokenClock := 0 },
       Except.error (Failure.api ⟨500, "Something went wrong while registering the user"⟩)) ∧
    ({ users := [userBob], nextId := 2, tokenClock := 0 } : DB) ≠ dbEmpty := by decide

/-- Claim C6 — the amended claim. Login and Refresh leave the store
unchanged whenever they terminate with an error, and so does Register on
every error path except one: when the error is the post-creation re-fetch
500, the created record may survive (Logout has no error path). -/
theorem c6_amended_atomicity :
    (∀ (env : Env) (db : DB) (input : LoginInput) (db' : DB) (e : Failure),
        loginUser env db input = (db', Except.error e) → db' = db) ∧
    (∀ (env : Env) (db : DB) (ct bt : Option TokenVal) (db' : DB) (e : Failure),
        refreshAccessToken env db ct bt = (db', Except.error e) → db' = db) ∧
    (∀ (env : Env) (db : DB) (input : RegisterInput) (db' : DB) (e : Failure),
        registerUser env db input = (db', Except.error e) →
          db' = db ∨
          e = Failure.api ⟨500, "Something went wrong while registering the user"⟩) := by
  refine ⟨?_, ?_, ?_⟩
  · intro env db input db' e h
    unfold loginUser at h
    split at h
    · exact (congrArg Prod.fst h).symm
    · split at h
      · exact (congrArg Prod.fst h).symm
      · split at h
        · exact (congrArg Prod.fst h).symm
        · split at h
          · next heq => exact (congrArg Prod.fst h).symm.trans (generate_error_db heq)
          · simp at h
  · intro env db ct bt db' e h
    unfold refreshAccessToken at h
    split at h
    · exact (congrArg Prod.fst h).symm
    · split at h
      · split at h
        · simp at h
        · next heq => exact (congrArg Prod.fst h).symm.trans (refreshTry_error_db heq)
      · exact (congrArg Prod.fst h).symm
  · intro env db input db' e h
    unfold registerUser at h
    dsimp only at h
    split at h
    · exact Or.inl (congrArg Prod.fst h).symm
    · split at h
      · exact Or.inl (congrArg Prod.fst h).symm
      · split at h
        · exact Or.inl (congrArg Prod.fst h).symm
        · split at h
          · exact Or.inl (congrArg Prod.fst h).symm
          · split at h
            · exact Or.inl (congrArg Prod.fst h).symm
            · split at h
              · have h2 := congrArg Prod.snd h
                simp only [Except.error.injEq] at h2
                exact Or.inr h2.symm
              · simp at h

/-- Claim C6 — witness for the amended claim: the concrete re-fetch-failure
run satisfies the register conjunct's hypothesis, and the conclusion's
right disjunct is the one that holds. -/
theorem c6_amended_witness :
    registerUser envNoRefetch dbEmpty regOkInput =
      ({ users := [userBob], nextId := 2, tokenClock := 0 },
       Except.error (Failure.api ⟨500, "Something went wrong while registering the user"⟩)) ∧
    (({ users := [userBob], nextId := 2, tokenClock := 0 } : DB) = dbEmpty ∨
     (Failure.api ⟨500, "Something went wrong while registering the user"⟩ : Failure) =
       Failure.api ⟨500, "Something went wrong while registering the user"⟩) :=
  ⟨by decide,
   c6_amended_atomicity.2.2 envNoRefetch dbEmpty regOkInput
     { users := [userBob], nextId := 2, tokenClock := 0 }
     (Failure.api ⟨500, "Something went wrong while registering the user"⟩) (by decide)⟩

/-- Claim C7 — confirmed. A login whose username/email matches a record but
whose password fails the stored-hash check is rejected with the 404
`Invalid user credentials` — the same 404 status used when no matching
identity exists — and not with a 401. -/
theorem c7_invalid_credentials_404 (env : Env) (db : DB) (input : LoginInput) (u : UserRec)
    (hor : (truthyStr input.username || truthyStr input.email) = true)
    (hfind : findOneByUsernameOrEmail db.users input.username input.email = some u)
    (hpw : isPasswordCorrect u input.password = false) :
    (loginUser env db input).2 = Except.error (Failure.api ⟨404, "Invalid user credentials"⟩) ∧
    (∀ db2 : DB, findOneByUsernameOrEmail db2.users input.username input.email = none →
       (loginUser env db2 input).2 = Except.error (Failure.api ⟨404, "User does not exist"⟩)) ∧
    (404 : Nat) ≠ 401 := by
  refine ⟨?_, ?_, by decide⟩
  · simp [loginUser, hor, hfind, hpw]
  · intro db2 h2
    simp [loginUser, hor, h2]

/-- Claim C7 — witness at a concrete wrong-password login. -/
theorem c7_witness :
    (loginUser envT db1u { username := some "alice", email := none, password := "wrong" }).2 =
      Except.error (Failure.api ⟨404, "Invalid user credentials"⟩) :=
  (c7_invalid_credentials_404 envT db1u
    { username := some "alice", email := none, password := "wrong" } user1
    (by decide) (by decide) (by decide)).1

/-- Property lookup of `accessToken` on the generator's result object. -/
theorem getProp_accessToken (p : TokenPair) :
    getProp (tokenPairProps p) "accessToken" = some p.accessToken := rfl

/-- Property lookup of `newRefreshToken` on the generator's result object:
the object has no such property, so the read yields `undefined`. -/
theorem getProp_newRefreshToken (p : TokenPair) :
    getProp (tokenPairProps p) "newRefreshToken" = none := rfl

/-- One refresh rotation of the store: the found user's stored token is
replaced by the freshly minted one and the issuance clock advances. -/
def rotatedDB (env : Env) (db : DB) (uid : Nat) : DB :=
  { db with
      users := updateUser db.users uid
        (setRefreshTok (jwtSign uid env.refreshSecret (db.tokenClock + 1))),
      tokenClock := db.tokenClock + 2 }

/-- A refresh presenting exactly the stored token of an existing user
succeeds, rotating the store and returning the (destructuring-damaged)
response. -/
theorem refresh_success_step (env : Env) (db : DB) (uid i : Nat) (u : UserRec)
    (hsave : env.saveOk = true)
    (hfind : findById db.users uid = some u)
    (htok : u.refreshToken = some (jwtSign uid env.refreshSecret i)) :
    refreshAccessToken env db (some (jwtSign uid env.refreshSecret i)) none =
      (rotatedDB env db uid,
       Except.ok { httpStatus := 200, bodyStatusCode := 200,
                   accessToken := some (jwtSign uid env.accessSecret db.tokenClock),
                   refreshToken := none,
                   cookies := [("accessToken", some (jwtSign uid env.accessSecret db.tokenClock)),
                               ("refreshToken", none)],
                   message := "Access token refreshed" }) := by
  have hid : u.id = uid := findById_id hfind
  simp [refreshAccessToken, jsOrTok, tokenTruthy, refreshTry, jwtVerify, jwtSign,
        hfind, htok, hid, generateAccessAndRefreshToken, hsave, rotatedDB,
        getProp_accessToken, getProp_newRefreshToken, setRefreshTok]

/-- A refresh presenting a refresh-secret-signed token for an existing
user that does not equal the stored token is rejected 401. -/
theorem refresh_reject_step (env : Env) (db : DB) (uid j : Nat) (w : UserRec)
    (hfind : findById db.users uid = some w)
    (hstored : w.refreshToken ≠ some (jwtSign uid env.refreshSecret j)) :
    refreshAccessToken env db (some (jwtSign uid env.refreshSecret j)) none =
      (db, Except.error (Failure.api ⟨401, "Refresh token is expired or used"⟩)) := by
  have hv : jwtVerify (jwtSign uid env.refreshSecret j) env.refreshSecret = Except.ok uid := by
    simp [jwtVerify, jwtSign]
  have h1 : refreshTry env db (jwtSign uid env.refreshSecret j) =
      (db, Except.error "Refresh token is expired or used") := by
    unfold refreshTry
    simp only [hv, hfind]
    rw [if_pos hstored]
  unfold refreshAccessToken
  simp only [show jsOrTok (some (jwtSign uid env.refreshSecret j)) none =
      some (jwtSign uid env.refreshSecret j) from rfl,
    show tokenTruthy (some (jwtSign uid env.refreshSecret j)) = true from rfl,
    h1]
  rfl

/-- Finding the rotated user in the rotated store. -/
theorem findById_rotatedDB (env : Env) (db : DB) (uid : Nat) (u : UserRec)
    (hfind : findById db.users uid = some u) (hid : u.id = uid) :
    findById (rotatedDB env db uid).users uid =
      some (setRefreshTok (jwtSign uid env.refreshSecret (db.tokenClock + 1)) u) := by
  show findById (updateUser db.users uid _) uid = _
  rw [findById_updateUser, hfind]
  simp [hid]

/-- Claim C4 — confirmed. First conjunct: whenever the presented token
verifies against the refresh secret and the claimed identity exists, the
refresh can only succeed if the presented token is exactly the stored
one. Remaining conjuncts: starting from a store whose user `uid` holds a
valid stored refresh token, a first refresh succeeds and rotates the
store; a second refresh with the first call's minted token succeeds and
rotates again; after that, the first call's token is rejected with the
401 supersession error while the second call's token still succeeds. -/
theorem c4_rotation_supersession (env : Env) (db : DB) (uid i : Nat) (u : UserRec)
    (hsave : env.saveOk = true)
    (hfind : findById db.users uid = some u)
    (htok : u.refreshToken = some (jwtSign uid env.refreshSecret i)) :
    (∀ (t : TokenVal) (uid' : Nat) (u' : UserRec) (db' : DB) (r : RefreshRes),
        jwtVerify t env.refreshSecret = Except.ok uid' →
        findById db.users uid' = some u' →
        refreshAccessToken env db (some t) none = (db', Except.ok r) →
        u'.refreshToken = some t) ∧
    (∃ r1, refreshAccessToken env db (some (jwtSign uid env.refreshSecret i)) none =
        (rotatedDB env db uid, Except.ok r1)) ∧
    (∃ r2, refreshAccessToken env (rotatedDB env db uid)
          (some (jwtSign uid env.refreshSecret (db.tokenClock + 1))) none =
        (rotatedDB env (rotatedDB env db uid) uid, Except.ok r2)) ∧
    ((refreshAccessToken env (rotatedDB env (rotatedDB env db uid) uid)
          (some (jwtSign uid env.refreshSecret (db.tokenClock + 1))) none).2 =
        Except.error (Failure.api ⟨401, "Refresh token is expired or used"⟩)) ∧
    (∃ db3 r3, refreshAccessToken env (rotatedDB env (rotatedDB env db uid) uid)
          (some (jwtSign uid env.refreshSecret ((rotatedDB env db uid).tokenClock + 1))) none =
        (db3, Except.ok r3)) := by
  have hid : u.id = uid := findById_id hfind
  have hfind1 : findById (rotatedDB env db uid).users uid =
      some (setRefreshTok (jwtSign uid env.refreshSecret (db.tokenClock + 1)) u) :=
    findById_rotatedDB env db uid u hfind hid
  have hfind2 : findById (rotatedDB env (rotatedDB env db uid) uid).users uid =
      some (setRefreshTok
        (jwtSign uid env.refreshSecret ((rotatedDB env db uid).tokenClock + 1))
        (setRefreshTok (jwtSign uid env.refreshSecret (db.tokenClock + 1)) u)) :=
    findById_rotatedDB env (rotatedDB env db uid) uid _ hfind1 hid
  refine ⟨?_, ?_, ?_, ?_, ?_⟩
  · intro t uid' u' db' r hv hf h
    by_contra hne
    cases t with
    | raw s => simp [jwtVerify] at hv
    | signed st =>
        obtain ⟨s, p, a⟩ := st
        by_cases hs : s = env.refreshSecret
        · subst hs
          simp [jwtVerify] at hv
          subst hv
          have h' : refreshAccessToken env db (some (jwtSign p env.refreshSecret a)) none =
              (db', Except.ok r) := h
          rw [refresh_reject_step env db p a u' hf hne] at h'
          simp at h'
        · simp [jwtVerify, hs] at hv
  · exact ⟨_, refresh_success_step env db uid i u hsave hfind htok⟩
  · exact ⟨_, refresh_success_step env (rotatedDB env db uid) uid (db.tokenClock + 1) _
      hsave hfind1 rfl⟩
  · rw [refresh_reject_step env (rotatedDB env (rotatedDB env db uid) uid) uid
      (db.tokenClock + 1) _ hfind2 (by simp [rotatedDB, setRefreshTok, jwtSign])]
  · exact ⟨_, _, refresh_success_step env (rotatedDB env (rotatedDB env db uid) uid) uid
      ((rotatedDB env db uid).tokenClock + 1) _ hsave hfind2 rfl⟩

/-- Claim C4 — witness: the concrete two-rotation chain for `user1`,
showing the superseded first-generation token rejected with the 401. -/
theorem c4_witness :
    findById db1u.users 1 = some user1 ∧
    (refreshAccessToken envT (rotatedDB envT (rotatedDB envT db1u 1) 1)
        (some (jwtSign 1 envT.refreshSecret (db1u.tokenClock + 1))) none).2 =
      Except.error (Failure.api ⟨401, "Refresh token is expired or used"⟩) :=
  ⟨by decide,
   (c4_rotation_supersession envT db1u 1 0 user1 rfl (by decide) (by decide)).2.2.2.1⟩

/-- The rotated store after a successful login (or refresh) of `user1`. -/
def db1uRot : DB :=
  { users := [{ user1 with refreshToken := some (jwtSign 1 "ref" 2) }],
    nextId := 2, tokenClock := 3 }

/-- The response of a successful login of `user1` against `db1u`. -/
def loginOkRes : LoginRes :=
  { httpStatus := 200, bodyStatusCode := 200,
    user := some [("_id", "1"), ("username", "alice"), ("email", "alice@x.com"),
                  ("fullName", "Alice"), ("avatar", "http://cdn/a.png"), ("coverImage", "")],
    accessToken := jwtSign 1 "acc" 1, refreshToken := jwtSign 1 "ref" 2,
    cookies := [("refreshToken", some (jwtSign 1 "ref" 2)),
                ("accessToken", some (jwtSign 1 "acc" 1))],
    message := "User logged in Successfully!!" }

/-- Claim C9 — confirmed. Every successful registration's returned record,
and every successful login's returned record, is a sanitized projection:
no field named `password` or `refreshToken` appears in it. -/
theorem c9_responses_sanitized :
    (∀ (env : Env) (db : DB) (input : RegisterInput) (db' : DB) (r : RegisterRes),
        registerUser env db input = (db', Except.ok r) →
        r.bodyData.all (fun kv => !(kv.1 = "password" || kv.1 = "refreshToken")) = true) ∧
    (∀ (env : Env) (db : DB) (input : LoginInput) (db' : DB) (r : LoginRes)
        (kvs : List (String × String)),
        loginUser env db input = (db', Except.ok r) → r.user = some kvs →
        kvs.all (fun kv => !(kv.1 = "password" || kv.1 = "refreshToken")) = true) := by
  constructor
  · intro env db input db' r h
    unfold registerUser at h
    dsimp only at h
    split at h
    · simp at h
    · split at h
      · simp at h
      · split at h
        · simp at h
        · split at h
          · simp at h
          · split at h
            · simp at h
            · split at h
              · simp at h
              · next createdUser heq =>
                  have h2 := congrArg Prod.snd h
                  simp only [Except.ok.injEq] at h2
                  rw [← h2]
                  split at heq
                  · obtain ⟨u', _, hc⟩ := Option.map_eq_some'.mp heq
                    rw [← hc]
                    exact selectSanitized_clean u'
                  · simp at heq
  · intro env db input db' r kvs h hu
    unfold loginUser at h
    split at h
    · simp at h
    · split at h
      · simp at h
      · split at h
        · simp at h
        · split at h
          · simp at h
          · have h2 := congrArg Prod.snd h
            simp only [Except.ok.injEq] at h2
            rw [← h2] at hu
            dsimp only at hu
            obtain ⟨u', _, hc⟩ := Option.map_eq_some'.mp hu
            rw [← hc]
            exact selectSanitized_clean u'

/-- Claim C9 — witness: the records returned by the concrete successful
registration and the concrete successful login carry no `password` or
`refreshToken` field. -/
theorem c9_witness :
    regOkRes.bodyData.all (fun kv => !(kv.1 = "password" || kv.1 = "refreshToken")) = true ∧
    (selectSanitized user1).all (fun kv => !(kv.1 = "password" || kv.1 = "refreshToken")) = true :=
  ⟨c9_responses_sanitized.1 envT dbEmpty regOkInput ⟨[userBob], 2, 0⟩ regOkRes (by decide),
   c9_responses_sanitized.2 envT db1u { username := some "alice", email := none, password := "pw123" }
     db1uRot loginOkRes (selectSanitized user1) (by decide) (by decide)⟩

/-- Claim C10 — confirmed. Every successful registration responds with HTTP
status 201 while the success envelope's own `statusCode` field says 200;
the two values disagree. -/
theorem c10_register_status_mismatch (env : Env) (db : DB) (input : RegisterInput)
    (db' : DB) (r : RegisterRes) (h : registerUser env db input = (db', Except.ok r)) :
    r.httpStatus = 201 ∧ r.bodyStatusCode = 200 ∧ r.httpStatus ≠ r.bodyStatusCode := by
  unfold registerUser at h
  dsimp only at h
  split at h
  · simp at h
  · split at h
    · simp at h
    · split at h
      · simp at h
      · split at h
        · simp at h
        · split at h
          · simp at h
          · split at h
            · simp at h
            · have h2 := congrArg Prod.snd h
              simp only [Except.ok.injEq] at h2
              rw [← h2]
              exact ⟨rfl, rfl, by simp⟩

/-- Claim C10 — witness at the concrete successful registration. -/
theorem c10_witness :
    regOkRes.httpStatus = 201 ∧ regOkRes.bodyStatusCode = 200 ∧
    regOkRes.httpStatus ≠ regOkRes.bodyStatusCode :=
  c10_register_status_mismatch envT dbEmpty regOkInput ⟨[userBob], 2, 0⟩ regOkRes (by decide)

end OVP
